import Mathlib

/-!
Verification development for the `coj` process-control library
(`src/pipe.cpp`, `src/process.cpp`).

The C++ operations are shallowly embedded as Lean functions.  Syscalls
(`read(2)`, `write(2)`, `kill(2)`) are nondeterministic, so each embedded
operation takes an explicit *trace*: the list of outcomes the kernel
returns to the successive syscalls the operation issues.  The embedded
function consumes trace events in program order and returns the C++
result together with the unconsumed suffix of the trace; "no syscall was
issued" is expressed as the returned suffix being the whole input trace.
A run that would need more syscalls than the trace provides evaluates to
`none` (the run is incomplete).

Machine integers: `Bytes::size_type` is `std::size_t` (64 bit); where the
C++ does `size_t` arithmetic that can wrap, the embedding reduces modulo
`2 ^ 64` explicitly.  Byte buffers (`Bytes`, a vector of octets) are
embedded as `List Nat`.
-/

namespace Coj

/-- The modulus `2 ^ 64` of `std::size_t` arithmetic. -/
def sizeTMod : Nat := 2 ^ 64

/-- Wrapping `size_t` subtraction `a - b` (modulo `2 ^ 64`). -/
def wsub (a b : Nat) : Nat := (a + (sizeTMod - b % sizeTMod)) % sizeTMod

/-- Linux `errno` value `EINTR`. -/
def EINTR : Nat := 4

/-- Linux `errno` value `EAGAIN` (= `EWOULDBLOCK`). -/
def EAGAIN : Nat := 11

/-- Linux `errno` value `EPIPE`. -/
def EPIPE : Nat := 32

/-- Retry limit `EINTR_RETRY_LIMIT` = 100 of both pipe endpoint classes
(`include/pipe.h`). -/
def EINTR_RETRY_LIMIT : Nat := 100

/-- Chunk bound `BUF_SIZE = PIPE_BUF` (`include/pipe.h`; 4096 on Linux). -/
def BUF_SIZE : Nat := 4096

/-- The `std::error_code` values the pipe layer produces: the domain codes
`IOErrc::IO_OK`, `IO_EOF`, `IO_INVALID_ARG`, or an OS `errno`
(`std::errc`) from `GetLastErrorCode()`. -/
inductive ErrC where
  | ok
  | eofE
  | invalidArg
  | errno (e : Nat)
deriving DecidableEq, Repr

/-- Outcome of one `read(2)` syscall: `chunk bytes` is a return of
`bytes.length` bytes (`chunk []` is a return of `0`, i.e. EOF);
`fail e` is a return of `-1` with `errno = e`. -/
inductive RdEvent where
  | chunk (bytes : List Nat)
  | fail (e : Nat)
deriving DecidableEq, Repr

/-- Outcome of one `write(2)` syscall: `wrote n` is a return of `n ≥ 0`;
`fail e` is a return of `-1` with `errno = e`. -/
inductive WrEvent where
  | wrote (n : Nat)
  | fail (e : Nat)
deriving DecidableEq, Repr

/-- `ReadResult` (`include/pipe.h`): the bytes read and the error field. -/
structure ReadResult where
  data : List Nat
  error : ErrC
deriving DecidableEq, Repr

/-- `WriteResult` (`include/pipe.h`): the byte count written and the error
field. -/
structure WriteResult where
  bytes_written : Nat
  error : ErrC
deriving DecidableEq, Repr

/-- The `while (total_bytes < size)` loop of `IPipeImpl::Read`
(`src/pipe.cpp:30-48`).  State: the pending trace, `eintr_cnt`, the
current value of `result.error` (initially `IO_OK`, never reset on a
later successful syscall), and the bytes accumulated so far (`acc`;
the C++ reads into `result.data` at `total_bytes` and resizes to
`total_bytes` at the end, so `acc` is exactly the returned data).
A chunk is truncated to the `bytes_to_read = size - total_bytes` request,
since `read(2)` returns at most the requested count. -/
def IPipeImpl.readLoop (size : Nat) (trace : List RdEvent) (eintrCnt : Nat)
    (err : ErrC) (acc : List Nat) : Option (ReadResult × List RdEvent) :=
  if size ≤ acc.length then some (⟨acc, err⟩, trace)
  else
    match trace with
    | [] => none
    | RdEvent.chunk bytes :: rest =>
      if bytes.length = 0 then some (⟨acc, ErrC.eofE⟩, rest)
      else IPipeImpl.readLoop size rest eintrCnt err
        (acc ++ bytes.take (size - acc.length))
    | RdEvent.fail e :: rest =>
      if e = EINTR ∧ eintrCnt + 1 ≤ EINTR_RETRY_LIMIT then
        IPipeImpl.readLoop size rest (eintrCnt + 1) (ErrC.errno e) acc
      else some (⟨acc, ErrC.errno e⟩, rest)

/-- Embedding of `IPipeImpl::Read(size)` (`src/pipe.cpp:21-51`): `result.data` starts as
`Bytes(size)` with `error = IO_OK`; `size == 0` returns immediately
(no syscall); otherwise the read loop runs with `total_bytes = 0`,
`eintr_cnt = 0`. -/
def IPipeImpl.Read (size : Nat) (trace : List RdEvent) :
    Option (ReadResult × List RdEvent) :=
  if size = 0 then some (⟨[], ErrC.ok⟩, trace)
  else IPipeImpl.readLoop size trace 0 ErrC.ok []

/-- The `while (total_bytes < size)` loop of `OPipeImpl::Write`
(`src/pipe.cpp:101-116`).  On a failed syscall `result.error` is set to
the errno; the source then retries only when
`result.error == interrupted && ++eintr_cnt > EINTR_RETRY_LIMIT`
(`src/pipe.cpp:110`, note the inverted comparison), otherwise it breaks.
A successful syscall adds its count (at most the requested
`bytes_to_write = size - total_bytes`, hence the `min`). -/
def OPipeImpl.writeLoop (size : Nat) (trace : List WrEvent) (eintrCnt : Nat)
    (err : ErrC) (total : Nat) : Option (WriteResult × List WrEvent) :=
  if size ≤ total then some (⟨total, err⟩, trace)
  else
    match trace with
    | [] => none
    | WrEvent.wrote n :: rest =>
      OPipeImpl.writeLoop size rest eintrCnt err (total + min n (size - total))
    | WrEvent.fail e :: rest =>
      if e = EINTR ∧ EINTR_RETRY_LIMIT < eintrCnt + 1 then
        OPipeImpl.writeLoop size rest (eintrCnt + 1) (ErrC.errno e) total
      else some (⟨total, ErrC.errno e⟩, rest)

/-- Embedding of `OPipeImpl::Write(data, offset, size)`
(`src/pipe.cpp:88-119`): first
the guard `offset + size > data.size()` (a `size_t` comparison, so the
sum wraps modulo `2 ^ 64`) returns `{0, IO_INVALID_ARG}`; then
`size == 0` returns `{0, IO_OK}`; otherwise the write loop runs. -/
def OPipeImpl.Write (data : List Nat) (offset size : Nat)
    (trace : List WrEvent) : Option (WriteResult × List WrEvent) :=
  if data.length < (offset + size) % sizeTMod then
    some (⟨0, ErrC.invalidArg⟩, trace)
  else if size = 0 then some (⟨0, ErrC.ok⟩, trace)
  else OPipeImpl.writeLoop size trace 0 ErrC.ok 0

/-- The `while (result.bytes_written < data.size() - offset)` loop of the
task body of `OPipeImpl::WriteAll` (`src/pipe.cpp:131-150`); the bound
and the chunk arithmetic are `size_t` subtractions (`wsub`).  `expired`
gives the value of `is_expired->load()` at the i-th poll.  Each iteration
calls `Write` on a chunk of at most `BUF_SIZE`; `IO_OK` accumulates the
count, `IO_INVALID_ARG` and non-transient errnos break with the error,
transient errnos (`EINTR`, `EAGAIN`/`EWOULDBLOCK`) sleep 100ms and retry.
`fuel` bounds the recursion; a run with insufficient fuel is `none`. -/
def OPipeImpl.writeAllLoop (data : List Nat) (offset : Nat)
    (expired : Nat → Bool) (fuel : Nat) (trace : List WrEvent)
    (poll bw : Nat) : Option (WriteResult × List WrEvent) :=
  match fuel with
  | 0 => none
  | fuel + 1 =>
    if bw < wsub data.length offset then
      if expired poll then some (⟨bw, ErrC.ok⟩, trace)
      else
        let btw := min BUF_SIZE (wsub (wsub data.length offset) bw)
        match OPipeImpl.Write data ((offset + bw) % sizeTMod) btw trace with
        | none => none
        | some (wr, rest) =>
          if wr.error = ErrC.ok then
            OPipeImpl.writeAllLoop data offset expired fuel rest (poll + 1)
              (bw + wr.bytes_written)
          else if wr.error = ErrC.invalidArg then
            some (⟨bw, ErrC.invalidArg⟩, rest)
          else if wr.error = ErrC.errno EINTR ∨ wr.error = ErrC.errno EAGAIN then
            OPipeImpl.writeAllLoop data offset expired fuel rest (poll + 1) bw
          else some (⟨bw, wr.error⟩, rest)
    else some (⟨bw, ErrC.ok⟩, trace)

/-- The task body of `OPipeImpl::WriteAll(data, offset, is_expired)`
(`src/pipe.cpp:121-154`): `result = {0, IO_OK}`; `data.empty()` returns
immediately (before the loop, with no `Write` call and no syscall);
otherwise the chunking loop runs. -/
def OPipeImpl.WriteAll (data : List Nat) (offset : Nat)
    (expired : Nat → Bool) (trace : List WrEvent) :
    Option (WriteResult × List WrEvent) :=
  if data.isEmpty then some (⟨0, ErrC.ok⟩, trace)
  else OPipeImpl.writeAllLoop data offset expired (trace.length + 1) trace 0 0

/-! ## Process controller (`src/process.cpp`) -/

/-- glibc `__WTERMSIG(status) = status & 0x7f`. -/
def Popen.WTERMSIG (s : Nat) : Nat := s % 128

/-- glibc `__WIFEXITED(status) = (__WTERMSIG(status) == 0)`. -/
def Popen.WIFEXITED (s : Nat) : Bool := Popen.WTERMSIG s == 0

/-- glibc `__WEXITSTATUS(status) = (status & 0xff00) >> 8`. -/
def Popen.WEXITSTATUS (s : Nat) : Nat := (s / 256) % 256

/-- The value of `(signed char) n` for an unsigned value `n`. -/
def signedChar (n : Nat) : Int :=
  if n % 256 < 128 then ((n % 256 : Nat) : Int) else ((n % 256 : Nat) : Int) - 256

/-- glibc `__WIFSIGNALED(status) =
(((signed char) ((status & 0x7f) + 1)) >> 1) > 0`; the arithmetic right
shift by one of a `signed char` equals division by two here (every
reachable value is in `{-128} ∪ [1, 127]`, where truncating and flooring
division agree). -/
def Popen.WIFSIGNALED (s : Nat) : Bool :=
  decide (0 < signedChar (Popen.WTERMSIG s + 1) / 2)

/-- Embedding of `Popen::set_returncode(status)` (`src/process.cpp:362-368`):
`WIFSIGNALED` first gives `-WTERMSIG`, then `WIFEXITED` gives
`WEXITSTATUS`; any other status throws `std::runtime_error`, embedded
as `none`. -/
def Popen.set_returncode (status : Nat) : Option Int :=
  if Popen.WIFSIGNALED status then some (-(Popen.WTERMSIG status : Int))
  else if Popen.WIFEXITED status then some ((Popen.WEXITSTATUS status : Nat) : Int)
  else none

/-- Predicate of `std::isspace` in the default C locale over the command characters:
space (32) and the control characters 9-13. -/
def isspaceChar (c : Char) : Bool := c.toNat = 32 ∨ (9 ≤ c.toNat ∧ c.toNat ≤ 13)

/-- The single-quote character. -/
def squote : Char := Char.ofNat 39

/-- The double-quote character. -/
def dquote : Char := Char.ofNat 34

/-- The character loop of `Popen::Tokenize` (`src/process.cpp:328-347`):
a quote character toggles its quoting state (when not inside the other
quote kind) and is dropped; whitespace outside quotes flushes the
current token if non-empty; any other character is appended to the
current token; the final non-empty token is flushed at the end. -/
def Popen.tokenizeAux : List Char → Bool → Bool → List Char → List (List Char)
  | [], _, _, cur => if cur.isEmpty then [] else [cur]
  | c :: rest, sq, dq, cur =>
    if c = squote ∧ dq = false then Popen.tokenizeAux rest (!sq) dq cur
    else if c = dquote ∧ sq = false then Popen.tokenizeAux rest sq (!dq) cur
    else if isspaceChar c = true ∧ sq = false ∧ dq = false then
      if cur.isEmpty then Popen.tokenizeAux rest sq dq []
      else cur :: Popen.tokenizeAux rest sq dq []
    else Popen.tokenizeAux rest sq dq (cur ++ [c])

/-- Embedding of `Popen::Tokenize(s)` (`src/process.cpp:322-349`), on the
command string as a character list. -/
def Popen.Tokenize (s : List Char) : List (List Char) :=
  Popen.tokenizeAux s false false []

/-- The emptiness guard of the `Popen` constructor
(`src/process.cpp:90-91`): `if (args.empty()) throw
std::invalid_argument(...)` — `args` is the RAW command string parameter,
not the token vector `args_` produced by `Tokenize`.  `true` means the
constructor throws `std::invalid_argument`. -/
def Popen.ctorEmptyGuard (s : List Char) : Bool := s.isEmpty

/-- The parent-side controller state the signal and communicate paths
touch: child pid, the optional recorded return code, the optional
resource-usage record (of abstract type `U`), and whether the parent
still holds the stdin-pipe write end and the stdout/stderr-pipe read
ends (`pipe_writer != nullptr` etc.). -/
structure PopenSt (U : Type) where
  pid : Int
  returncode : Option Int
  usage : Option U
  stdinWriter : Bool
  stdoutReader : Bool
  stderrReader : Bool
deriving DecidableEq, Repr

/-- Which of the three `Communicate` workers were started
(`std_in_writer`, `std_out_reader`, `std_err_reader`). -/
structure Workers where
  stdinW : Bool
  stdoutR : Bool
  stderrR : Bool
deriving DecidableEq, Repr

/-- The exception `Communicate` can raise before waiting:
`std::invalid_argument`. -/
inductive CommErr where
  | invalidArg
deriving DecidableEq, Repr

/-- The sequential prefix of `Popen::Communicate`
(`src/process.cpp:204-254`), i.e. everything the controlling thread does
before calling `Wait`: if the input is non-empty it requires
`std_in_.pipe_writer != nullptr` (else it throws `std::invalid_argument`
before starting any worker) and starts the stdin writer; the
stdout/stderr readers are started iff the respective parent-side pipe
reader exists.  The controlling thread itself never resets
`std_in_.pipe_writer` (only worker `W` does, asynchronously, after
writing all input), so the returned controller state is unchanged. -/
def Popen.CommunicateSetup {U : Type} (input : List Nat) (st : PopenSt U) :
    Except CommErr (Workers × PopenSt U) :=
  if input.isEmpty = false then
    if st.stdinWriter = false then Except.error CommErr.invalidArg
    else Except.ok (⟨true, st.stdoutReader, st.stderrReader⟩, st)
  else Except.ok (⟨false, st.stdoutReader, st.stderrReader⟩, st)

/-- Outcome of `Popen::SendSignal`: the controller state afterwards,
whether the `kill(2)` syscall was issued, and whether `OSError` was
thrown. -/
structure SignalOutcome (U : Type) where
  state : PopenSt U
  killCalled : Bool
  threw : Bool
deriving DecidableEq, Repr

/-- Embedding of `Popen::SendSignal(signal)` (`src/process.cpp:294-297`):
`if (!returncode() && ::kill(pid_, signal) == -1) throw OSError(...)`.
When the return code is already recorded the conjunction short-circuits:
no `kill(2)`, no throw, state untouched.  Otherwise `kill(2)` runs and a
`-1` return (`killFails`) throws. -/
def Popen.SendSignal {U : Type} (st : PopenSt U) (signal : Int)
    (killFails : Bool) : SignalOutcome U :=
  if (st.returncode).isSome then ⟨st, false, false⟩
  else ⟨st, true, killFails⟩

/-- Wrapper `Popen::Terminate()` = `SendSignal(SIGTERM)`
(`src/process.cpp:299`). -/
def Popen.Terminate {U : Type} (st : PopenSt U) (killFails : Bool) :
    SignalOutcome U :=
  Popen.SendSignal st 15 killFails

/-- Wrapper `Popen::Kill()` = `SendSignal(SIGKILL)`
(`src/process.cpp:300`). -/
def Popen.Kill {U : Type} (st : PopenSt U) (killFails : Bool) :
    SignalOutcome U :=
  Popen.SendSignal st 9 killFails

/-! ## Claims about the pipe layer -/

/-- Invariant of the read loop: the accumulator never grows past `size`,
and an `IO_OK` error at exit is only possible when the accumulator is
full, because every terminating syscall outcome other than filling the
buffer overwrites the error field with `IO_EOF` or an errno. -/
lemma readLoop_ok_means_full (size : Nat) :
    ∀ (trace : List RdEvent) (cnt : Nat) (err : ErrC) (acc : List Nat)
      (r : ReadResult) (rest : List RdEvent),
      acc.length ≤ size →
      IPipeImpl.readLoop size trace cnt err acc = some (r, rest) →
      r.error = ErrC.ok → r.data.length = size := by
  intro trace
  induction trace with
  | nil =>
    intro cnt err acc r rest hle h _
    rw [IPipeImpl.readLoop.eq_def] at h
    split at h
    · rename_i hsz
      cases h
      exact Nat.le_antisymm hle hsz
    · exact absurd h (by simp)
  | cons ev tl ih =>
    intro cnt err acc r rest hle h hok
    rw [IPipeImpl.readLoop.eq_def] at h
    split at h
    · rename_i hsz
      cases h
      exact Nat.le_antisymm hle hsz
    · rename_i hsz
      cases ev with
      | chunk bytes =>
        simp only at h
        split at h
        · cases h
          exact absurd hok (by simp)
        · refine ih cnt err _ r rest ?_ h hok
          simp only [List.length_append, List.length_take]
          omega
      | fail e =>
        simp only at h
        split at h
        · exact ih (cnt + 1) (ErrC.errno e) acc r rest hle h hok
        · cases h
          exact absurd hok (by simp)

/-- Claim C5 (amended): a short read does not make `IPipeImpl::Read`
return; the loop keeps issuing read syscalls, and the `IO_OK` error can
only be returned together with a buffer of exactly the requested size —
partial data is always accompanied by `IO_EOF` or an errno. -/
theorem C5_read_ok_only_when_full (size : Nat) (trace : List RdEvent)
    (r : ReadResult) (rest : List RdEvent)
    (h : IPipeImpl.Read size trace = some (r, rest))
    (hok : r.error = ErrC.ok) : r.data.length = size := by
  rw [IPipeImpl.Read] at h
  split at h
  · rename_i hsz
    cases h
    simp [hsz]
  · exact readLoop_ok_means_full size trace 0 ErrC.ok [] r rest (by simp) h hok

/-- Witness for C5: a complete run in which the first syscall delivers a
short read (1 of 2 bytes) and the second delivers the rest; the result
is `IO_OK` with a full 2-byte buffer. -/
theorem C5_witness :
    (⟨[7, 8], ErrC.ok⟩ : ReadResult).data.length = 2 :=
  C5_read_ok_only_when_full 2 [RdEvent.chunk [7], RdEvent.chunk [8]]
    ⟨[7, 8], ErrC.ok⟩ [] (by decide) (by decide)

/-- Counterexample to claim C5 as stated: `Read(2)` whose first syscall
is a short read of 1 byte (neither an error nor 0) and whose second
syscall fails with `EAGAIN` returns the partial buffer `[7]` together
with errno `EAGAIN`, not with `Ok`. -/
theorem C5_counterexample :
    IPipeImpl.Read 2 [RdEvent.chunk [7], RdEvent.fail EAGAIN] =
      some (⟨[7], ErrC.errno EAGAIN⟩, []) ∧
    ErrC.errno EAGAIN ≠ ErrC.ok := by
  constructor
  · decide
  · decide

/-- Claim C2: evaluation of `OPipeImpl::Write` at the failing input.  A
1-byte write whose first syscall is interrupted (`EINTR`) returns
immediately with 0 bytes written and errno `EINTR`; the second trace
event — a syscall that would have succeeded — is left unconsumed, i.e.
no retry was issued.  The retry condition at `src/pipe.cpp:110` is
`++eintr_cnt > EINTR_RETRY_LIMIT`, inverted with respect to the read
path's `++eintr_cnt <= EINTR_RETRY_LIMIT` (`src/pipe.cpp:39`); the spec
itself lists this inversion as a source bug (spec §9). -/
theorem C2_write_no_retry_on_first_eintr :
    OPipeImpl.Write [5] 0 1 [WrEvent.fail EINTR, WrEvent.wrote 1] =
      some (⟨0, ErrC.errno EINTR⟩, [WrEvent.wrote 1]) := by
  decide

/-- Claim C4 (amended): the out-of-range guard of `OPipeImpl::Write`
compares `offset + size` as wrapping `size_t` addition; whenever the
wrapped sum exceeds `data.length`, the result is `{0, IO_INVALID_ARG}`
and the trace is untouched (no write syscall is issued). -/
theorem C4_write_wrapped_guard (data : List Nat) (offset size : Nat)
    (trace : List WrEvent)
    (h : data.length < (offset + size) % sizeTMod) :
    OPipeImpl.Write data offset size trace =
      some (⟨0, ErrC.invalidArg⟩, trace) := by
  rw [OPipeImpl.Write, if_pos h]

/-- Witness for C4: `Write([], 0, 1)` is rejected with `IO_INVALID_ARG`
and zero bytes written, with the trace untouched. -/
theorem C4_witness :
    OPipeImpl.Write [] 0 1 [WrEvent.wrote 1] =
      some (⟨0, ErrC.invalidArg⟩, [WrEvent.wrote 1]) :=
  C4_write_wrapped_guard [] 0 1 [WrEvent.wrote 1] (by decide)

/-- Counterexample to claim C4 as stated (mathematical, non-wrapping
addition): with `offset = 2 ^ 64 - 1` and `size = 2` on a 1-byte buffer
the mathematical sum `2 ^ 64 + 1` exceeds the length, yet the `size_t`
sum wraps to 1, the guard passes, write syscalls are issued (the trace
is consumed) and the result error is `IO_OK`, not `IO_INVALID_ARG`. -/
theorem C4_counterexample :
    OPipeImpl.Write [5] (2 ^ 64 - 1) 2 [WrEvent.wrote 1, WrEvent.wrote 1] =
      some (⟨2, ErrC.ok⟩, []) ∧
    ([5] : List Nat).length < (2 ^ 64 - 1) + 2 ∧
    ErrC.ok ≠ ErrC.invalidArg := by
  refine ⟨by decide, by decide, by decide⟩

/-- Claim C8 (amended): `Read(0)` returns 0 bytes with `IO_OK` issuing no
syscall, for every trace; `Write(data, offset, 0)` likewise never issues
a syscall and returns 0 bytes — with `IO_OK` exactly when the `size_t`
guard `offset + 0 ≤ data.length` passes, and with `IO_INVALID_ARG` when
`offset` (reduced modulo `2 ^ 64`) exceeds `data.length`. -/
theorem C8_zero_size_no_syscall (data : List Nat) (offset : Nat)
    (rtrace : List RdEvent) (wtrace : List WrEvent) :
    IPipeImpl.Read 0 rtrace = some (⟨[], ErrC.ok⟩, rtrace) ∧
    (offset ≤ data.length → data.length < sizeTMod →
      OPipeImpl.Write data offset 0 wtrace = some (⟨0, ErrC.ok⟩, wtrace)) ∧
    (data.length < offset % sizeTMod →
      OPipeImpl.Write data offset 0 wtrace =
        some (⟨0, ErrC.invalidArg⟩, wtrace)) := by
  refine ⟨by rw [IPipeImpl.Read, if_pos rfl], ?_, ?_⟩
  · intro h1 h2
    have hm : (offset + 0) % sizeTMod = offset := by
      rw [Nat.add_zero]
      exact Nat.mod_eq_of_lt (lt_of_le_of_lt h1 h2)
    rw [OPipeImpl.Write, if_neg (by rw [hm]; omega), if_pos rfl]
  · intro h
    rw [OPipeImpl.Write, if_pos (by rw [Nat.add_zero]; exact h)]

/-- Witness for C8: a zero-size read, a zero-size in-range write, and a
zero-size out-of-range write, all leaving their traces untouched. -/
theorem C8_witness :
    IPipeImpl.Read 0 [RdEvent.fail EINTR] =
      some (⟨[], ErrC.ok⟩, [RdEvent.fail EINTR]) ∧
    OPipeImpl.Write [5] 1 0 [WrEvent.wrote 1] =
      some (⟨0, ErrC.ok⟩, [WrEvent.wrote 1]) ∧
    OPipeImpl.Write [] 1 0 [WrEvent.wrote 1] =
      some (⟨0, ErrC.invalidArg⟩, [WrEvent.wrote 1]) :=
  ⟨(C8_zero_size_no_syscall [5] 1 [RdEvent.fail EINTR] [WrEvent.wrote 1]).1,
   (C8_zero_size_no_syscall [5] 1 [RdEvent.fail EINTR]
      [WrEvent.wrote 1]).2.1 (by decide) (by decide),
   (C8_zero_size_no_syscall [] 1 [RdEvent.fail EINTR]
      [WrEvent.wrote 1]).2.2 (by decide)⟩

/-- Counterexample to claim C8 as stated ("for every value of data and
offset"): `Write([], 1, 0)` hits the `size_t` guard `1 + 0 > 0` and
returns `IO_INVALID_ARG`, not `IO_OK`. -/
theorem C8_counterexample :
    OPipeImpl.Write [] 1 0 [] = some (⟨0, ErrC.invalidArg⟩, []) ∧
    ErrC.invalidArg ≠ ErrC.ok := by
  refine ⟨by decide, by decide⟩

/-- Claim C10: `OPipeImpl::WriteAll` on an empty buffer returns
`{0, IO_OK}` for every offset — the `data.empty()` early return runs
before any offset validation and before any `Write` call, so no syscall
is issued (the trace is untouched) and no `IO_INVALID_ARG` is possible;
whereas `OPipeImpl::Write` on the same empty buffer with the same
positive offset (any value a `size_t` can hold) returns
`{0, IO_INVALID_ARG}`. -/
theorem C10_writeall_empty_skips_validation (offset : Nat)
    (expired : Nat → Bool) (trace : List WrEvent) :
    OPipeImpl.WriteAll [] offset expired trace =
      some (⟨0, ErrC.ok⟩, trace) ∧
    (0 < offset → offset < sizeTMod →
      OPipeImpl.Write [] offset 0 trace =
        some (⟨0, ErrC.invalidArg⟩, trace)) := by
  constructor
  · rw [OPipeImpl.WriteAll, if_pos (show ([] : List Nat).isEmpty = true from rfl)]
  · intro h1 h2
    rw [OPipeImpl.Write, if_pos ?_]
    simp only [List.length_nil, Nat.add_zero]
    rw [Nat.mod_eq_of_lt h2]
    exact h1

/-- Witness for C10: offset 1 on the empty buffer — `WriteAll` succeeds
with 0 bytes and an untouched trace, while `Write` is rejected. -/
theorem C10_witness :
    OPipeImpl.WriteAll [] 1 (fun _ => false) [WrEvent.wrote 3] =
      some (⟨0, ErrC.ok⟩, [WrEvent.wrote 3]) ∧
    OPipeImpl.Write [] 1 0 [WrEvent.wrote 3] =
      some (⟨0, ErrC.invalidArg⟩, [WrEvent.wrote 3]) :=
  ⟨(C10_writeall_empty_skips_validation 1 (fun _ => false)
      [WrEvent.wrote 3]).1,
   (C10_writeall_empty_skips_validation 1 (fun _ => false)
      [WrEvent.wrote 3]).2 (by decide) (by decide)⟩

/-! ## Claims about the process controller -/

/-- Claim C1 (amended): when `Communicate` is called with an empty input
buffer, no stdin-writer worker is started and the parent-side stdin pipe
writer is NOT closed — the controlling thread leaves the controller
state, including the writer handle, unchanged before waiting on the
child, so a child reading its stdin does not observe EOF from this
path. -/
theorem C1_empty_input_no_worker_writer_left_open {U : Type}
    (st : PopenSt U) :
    Popen.CommunicateSetup [] st =
      Except.ok (⟨false, st.stdoutReader, st.stderrReader⟩, st) := by
  rw [Popen.CommunicateSetup]
  simp

/-- Counterexample to claim C1 as stated: on a controller that still
holds the stdin pipe writer, `Communicate` with empty input starts no
stdin worker (first component `false`) but also leaves the writer open
(second component `true`), while the claim requires it closed
(`false`). -/
theorem C1_counterexample :
    (Popen.CommunicateSetup ([] : List Nat)
        (⟨1, none, none, true, true, true⟩ : PopenSt Unit)).map
      (fun r => (r.1.stdinW, r.2.stdinWriter)) = Except.ok (false, true) ∧
    (Except.ok (false, true) : Except CommErr (Bool × Bool)) ≠
      Except.ok (false, false) := by
  refine ⟨rfl, by simp⟩

/-- Claim C3: exit disposition recorded by `Popen::set_returncode`.  For
a wait status of a normally exited child the recorded code is the
child's exit value `WEXITSTATUS` (always in `[0, 255]`); for a
signal-terminated child it is the negated signal number `-WTERMSIG`;
any other wait status (stopped/continued, low seven bits `0x7f`) throws
`std::runtime_error` (embedded as `none`). -/
theorem C3_set_returncode_disposition (s : Nat) :
    (Popen.WIFEXITED s = true →
      Popen.set_returncode s = some ((Popen.WEXITSTATUS s : Nat) : Int) ∧
      Popen.WEXITSTATUS s ≤ 255) ∧
    (Popen.WIFSIGNALED s = true →
      Popen.set_returncode s = some (-(Popen.WTERMSIG s : Int))) ∧
    (Popen.WIFEXITED s = false → Popen.WIFSIGNALED s = false →
      Popen.set_returncode s = none) := by
  refine ⟨?_, ?_, ?_⟩
  · intro hex
    have h0 : s % 128 = 0 := by
      simpa [Popen.WIFEXITED, Popen.WTERMSIG] using hex
    have hsig : Popen.WIFSIGNALED s = false := by
      simp [Popen.WIFSIGNALED, Popen.WTERMSIG, h0, signedChar]
    refine ⟨?_, ?_⟩
    · rw [Popen.set_returncode, hsig, if_neg (by simp), if_pos hex]
    · have : Popen.WEXITSTATUS s < 256 := Nat.mod_lt _ (by norm_num)
      omega
  · intro hsig
    rw [Popen.set_returncode, hsig, if_pos rfl]
  · intro hex hsig
    rw [Popen.set_returncode, hsig, hex]
    simp

/-- Witness for C3: a normal exit with value 7 (status `0x0700`), a
termination by signal 9 (status `9`), and a stopped status (`0x7f`)
which is the fatal case. -/
theorem C3_witness :
    Popen.set_returncode 1792 = some 7 ∧
    Popen.set_returncode 9 = some (-9) ∧
    Popen.set_returncode 127 = none := by
  refine ⟨?_, ?_, ?_⟩
  · have h := ((C3_set_returncode_disposition 1792).1 (by decide)).1
    simpa [show Popen.WEXITSTATUS 1792 = 7 from by decide] using h
  · have h := (C3_set_returncode_disposition 9).2.1 (by decide)
    simpa [show Popen.WTERMSIG 9 = 9 from by decide] using h
  · exact (C3_set_returncode_disposition 127).2.2 (by decide) (by decide)

/-- Claim C6: evaluation of the constructor guard at the failing input.
Tokenizing the one-space command `" "` yields no tokens, yet the
constructor's emptiness guard (`src/process.cpp:90`) tests the RAW
string — which is non-empty — so no `std::invalid_argument` is thrown
and the constructor proceeds toward spawning with an empty argv
(indexing `args_[0]` out of bounds); only the genuinely empty string
trips the guard. -/
theorem C6_whitespace_command_not_rejected :
    Popen.Tokenize [Char.ofNat 32] = [] ∧
    Popen.ctorEmptyGuard [Char.ofNat 32] = false ∧
    Popen.ctorEmptyGuard [] = true ∧
    Popen.Tokenize [] = [] := by
  refine ⟨by decide, by decide, by decide, by decide⟩

/-- Claim C7: once the exit code has been recorded, `SendSignal`,
`Terminate` and `Kill` are no-ops — the `kill(2)` syscall is not issued
even if it would fail, no exception is thrown, and the controller state
(pid, return code, usage, IPC descriptor handles) is unchanged. -/
theorem C7_signals_noop_after_reap {U : Type} (st : PopenSt U)
    (signal : Int) (killFails : Bool)
    (h : (st.returncode).isSome = true) :
    Popen.SendSignal st signal killFails = ⟨st, false, false⟩ ∧
    Popen.Terminate st killFails = ⟨st, false, false⟩ ∧
    Popen.Kill st killFails = ⟨st, false, false⟩ := by
  refine ⟨?_, ?_, ?_⟩ <;>
    simp [Popen.SendSignal, Popen.Terminate, Popen.Kill, h]

/-- Witness for C7: a reaped controller (return code 0 recorded) ignores
a signal request even when the `kill(2)` syscall would fail. -/
theorem C7_witness :
    Popen.SendSignal (⟨1, some 0, none, true, true, true⟩ : PopenSt Unit)
        2 true =
      ⟨⟨1, some 0, none, true, true, true⟩, false, false⟩ ∧
    Popen.Terminate (⟨1, some 0, none, true, true, true⟩ : PopenSt Unit)
        true =
      ⟨⟨1, some 0, none, true, true, true⟩, false, false⟩ ∧
    Popen.Kill (⟨1, some 0, none, true, true, true⟩ : PopenSt Unit) true =
      ⟨⟨1, some 0, none, true, true, true⟩, false, false⟩ :=
  C7_signals_noop_after_reap
    (⟨1, some 0, none, true, true, true⟩ : PopenSt Unit) 2 true rfl

/-- Claim C9: `Communicate` with a non-empty input buffer on a controller
whose parent-side stdin pipe writer is absent throws
`std::invalid_argument` in the controlling thread, before any worker is
started and before the wait on the child begins (the error return of the
setup carries no started worker). -/
theorem C9_nonempty_input_without_writer_raises {U : Type}
    (input : List Nat) (st : PopenSt U)
    (hne : input ≠ []) (hw : st.stdinWriter = false) :
    Popen.CommunicateSetup input st = Except.error CommErr.invalidArg := by
  rw [Popen.CommunicateSetup]
  rw [if_pos (by simp [List.isEmpty_iff, hne]), if_pos hw]

/-- Witness for C9: a 1-byte input on a controller whose stdin writer
handle is already gone. -/
theorem C9_witness :
    Popen.CommunicateSetup [1]
        (⟨1, none, none, false, true, true⟩ : PopenSt Unit) =
      Except.error CommErr.invalidArg :=
  C9_nonempty_input_without_writer_raises [1]
    (⟨1, none, none, false, true, true⟩ : PopenSt Unit) (by simp) rfl

end Coj
